import Mathlib

/-!
Verification of the record-layout declarations in
DerivedFiles/BiblePunctuationSystems_Tables.h.

The header declares three C struct types and an include guard.  We embed:
* the declarations themselves (field names, order, and C types with their
  const qualifiers), transcribed from the header;
* value-level Lean structures mirroring the three record types;
* a model of the external table generator (the companion data files are not
  part of the sources), modelled from the specification text;
* a model of include-guard processing for the preprocessor guard.
-/

namespace BiblePunctuationTables

/-- Field identifiers appearing in the header declarations. -/
inductive CFieldName where
  | referenceAbbreviation
  | indexNumber
  | systemName
  | byReference
  | byBook
deriving DecidableEq

/-- Struct type names declared by the header (typedef names). -/
inductive CStructName where
  | punctuationByRefEntryName
  | punctuationByIndexEntryName
  | tableEntryName
deriving DecidableEq

/-- C types as used in the header: unsigned char, int, const qualification,
fixed-size arrays, pointers, and references to the declared struct types. -/
inductive CType where
  | uchar
  | cint
  | constQual (t : CType)
  | arr (elt : CType) (len : Nat)
  | ptr (t : CType)
  | structRef (s : CStructName)
deriving DecidableEq

/-- A field declaration inside a struct: its name and its C type. -/
structure CFieldDecl where
  fname : CFieldName
  ftype : CType
deriving DecidableEq

/-- A struct declaration: the typedef name and the ordered field list. -/
structure CStructDecl where
  sname : CStructName
  fields : List CFieldDecl
deriving DecidableEq

/-- Transcribed from the header, lines 9-12:
`typedef struct punctuationByRefEntryStruct { const unsigned char
referenceAbbreviation[3+1]; const int indexNumber; } punctuationByRefEntry;` -/
def punctuationByRefEntryDecl : CStructDecl :=
  { sname := .punctuationByRefEntryName,
    fields := [⟨.referenceAbbreviation, .arr (.constQual .uchar) (3 + 1)⟩,
               ⟨.indexNumber, .constQual .cint⟩] }

/-- Transcribed from the header, lines 14-17:
`typedef struct punctuationByIndexEntryStruct { const int indexNumber;
const unsigned char referenceAbbreviation[3+1]; } punctuationByIndexEntry;` -/
def punctuationByIndexEntryDecl : CStructDecl :=
  { sname := .punctuationByIndexEntryName,
    fields := [⟨.indexNumber, .constQual .cint⟩,
               ⟨.referenceAbbreviation, .arr (.constQual .uchar) (3 + 1)⟩] }

/-- Transcribed from the header, lines 19-23:
`typedef struct tableEntryStruct { const unsigned char* systemName;
punctuationByRefEntry* byReference; punctuationByIndexEntry* byBook; }
tableEntry;` -/
def tableEntryDecl : CStructDecl :=
  { sname := .tableEntryName,
    fields := [⟨.systemName, .ptr (.constQual .uchar)⟩,
               ⟨.byReference, .ptr (.structRef .punctuationByRefEntryName)⟩,
               ⟨.byBook, .ptr (.structRef .punctuationByIndexEntryName)⟩] }

/-- Whether an object of this C type is itself const (non-assignable after
initialization).  An array is const when its elements are; a plain pointer
is assignable even when its pointee is const. -/
def CType.objectConst : CType → Bool
  | .constQual _ => true
  | .arr t _ => t.objectConst
  | _ => false

/-- Whether this C type is a pointer whose pointee is const. -/
def CType.pointeeConst : CType → Bool
  | .ptr t => t.objectConst
  | _ => false

/-- All fields of the struct declaration are const-qualified objects. -/
def allFieldsConst (d : CStructDecl) : Bool :=
  d.fields.all (fun f => f.ftype.objectConst)

/-! ### Value-level records mirroring the three struct types -/

/-- Value-level mirror of `punctuationByRefEntry`: a 4-unit fixed-width byte
field followed by an int field, in declaration order. -/
structure punctuationByRefEntry where
  referenceAbbreviation : Fin (3 + 1) → Fin 256
  indexNumber : Int

/-- Value-level mirror of `punctuationByIndexEntry`: the int field first,
then the 4-unit fixed-width byte field, in declaration order. -/
structure punctuationByIndexEntry where
  indexNumber : Int
  referenceAbbreviation : Fin (3 + 1) → Fin 256

/-- Value-level mirror of `tableEntry`: the system name text and the two
entry arrays the struct points at. -/
structure tableEntry where
  systemName : List (Fin 256)
  byReference : List punctuationByRefEntry
  byBook : List punctuationByIndexEntry

/-- The storage units occupied by the abbreviation field of a by-reference
entry, in order. -/
def punctuationByRefEntry.abbrevUnits (e : punctuationByRefEntry) : List (Fin 256) :=
  (List.finRange (3 + 1)).map e.referenceAbbreviation

/-- The storage units occupied by the abbreviation field of a by-index
entry, in order. -/
def punctuationByIndexEntry.abbrevUnits (e : punctuationByIndexEntry) : List (Fin 256) :=
  (List.finRange (3 + 1)).map e.referenceAbbreviation

/-- Build a by-index entry from a by-reference entry's two fields. -/
def toIndexEntry (e : punctuationByRefEntry) : punctuationByIndexEntry :=
  ⟨e.indexNumber, e.referenceAbbreviation⟩

/-- Build a by-reference entry from a by-index entry's two fields. -/
def toRefEntry (e : punctuationByIndexEntry) : punctuationByRefEntry :=
  ⟨e.referenceAbbreviation, e.indexNumber⟩

/-- The logical (abbreviation, index) pair carried by a by-reference entry. -/
def refPairOf (e : punctuationByRefEntry) : (Fin (3 + 1) → Fin 256) × Int :=
  (e.referenceAbbreviation, e.indexNumber)

/-- The logical (abbreviation, index) pair carried by a by-index entry. -/
def indexPairOf (e : punctuationByIndexEntry) : (Fin (3 + 1) → Fin 256) × Int :=
  (e.referenceAbbreviation, e.indexNumber)

/-! ### Model of the external table generator

The companion data files emitted by the generator are not among the sources;
only this header is.  The generator's behaviour is therefore modelled from
the specification text. -/

/-- A byte is a printable character (space through tilde in ASCII). -/
def printableChar (b : Fin 256) : Bool :=
  decide (0x20 ≤ b.val) && decide (b.val ≤ 0x7e)

/-- Modelled from the spec: a reference abbreviation as the generator
receives it — exactly 3 printable characters. -/
structure AbbrevInput where
  c0 : Fin 256
  c1 : Fin 256
  c2 : Fin 256
  h0 : printableChar c0 = true
  h1 : printableChar c1 = true
  h2 : printableChar c2 = true

/-- Modelled from the spec: one logical association between a reference
abbreviation and a non-negative punctuation-system index number. -/
structure SystemPair where
  abbrevPart : AbbrevInput
  indexPart : Nat

/-- Lay an abbreviation out as the 4-unit fixed-width field: 3 data
characters followed by the terminating sentinel 0 in the fourth unit. -/
def abbrevField (a : AbbrevInput) : Fin (3 + 1) → Fin 256
  | ⟨0, _⟩ => a.c0
  | ⟨1, _⟩ => a.c1
  | ⟨2, _⟩ => a.c2
  | ⟨_ + 3, _⟩ => 0

/-- Numeric key of an abbreviation: its 3 characters read big-endian, so
that key order is lexicographic order on the characters. -/
def abbrevKey (a : AbbrevInput) : Nat :=
  (a.c0.val * 256 + a.c1.val) * 256 + a.c2.val

/-- The by-reference entry the generator emits for one association. -/
def mkRefEntry (p : SystemPair) : punctuationByRefEntry :=
  ⟨abbrevField p.abbrevPart, (p.indexPart : Int)⟩

/-- The by-index entry the generator emits for one association. -/
def mkIndexEntry (p : SystemPair) : punctuationByIndexEntry :=
  ⟨(p.indexPart : Int), abbrevField p.abbrevPart⟩

/-- Order on associations by abbreviation key. -/
def byRefOrder (p q : SystemPair) : Prop :=
  abbrevKey p.abbrevPart ≤ abbrevKey q.abbrevPart

/-- Order on associations by index number. -/
def byIndexOrder (p q : SystemPair) : Prop :=
  p.indexPart ≤ q.indexPart

instance : DecidableRel byRefOrder :=
  fun p q => Nat.decLe (abbrevKey p.abbrevPart) (abbrevKey q.abbrevPart)

instance : DecidableRel byIndexOrder :=
  fun p q => Nat.decLe p.indexPart q.indexPart

instance : IsTotal SystemPair byRefOrder :=
  ⟨fun p q => Nat.le_total (abbrevKey p.abbrevPart) (abbrevKey q.abbrevPart)⟩

instance : IsTrans SystemPair byRefOrder :=
  ⟨fun _ _ _ => Nat.le_trans⟩

instance : IsTotal SystemPair byIndexOrder :=
  ⟨fun p q => Nat.le_total p.indexPart q.indexPart⟩

instance : IsTrans SystemPair byIndexOrder :=
  ⟨fun _ _ _ => Nat.le_trans⟩

/-- Modelled from the spec: the external code generator (absent from the
sources) takes a system's name and its logical set of
abbreviation-to-index associations, pre-sorts the set once by abbreviation
and once by index number, and emits the two constant arrays of a populated
`tableEntry`. -/
def generateTable (nm : List (Fin 256)) (pairs : List SystemPair) : tableEntry :=
  { systemName := nm,
    byReference := (List.insertionSort byRefOrder pairs).map mkRefEntry,
    byBook := (List.insertionSort byIndexOrder pairs).map mkIndexEntry }

/-- The logical pair an association contributes to either array. -/
def logicalPair (p : SystemPair) : (Fin (3 + 1) → Fin 256) × Int :=
  (abbrevField p.abbrevPart, (p.indexPart : Int))

/-- Key of a by-reference entry, read off its abbreviation field. -/
def refEntryKey (e : punctuationByRefEntry) : Nat :=
  ((e.referenceAbbreviation 0).val * 256 + (e.referenceAbbreviation 1).val) * 256
    + (e.referenceAbbreviation 2).val

/-- Order on by-reference entries by their abbreviation field. -/
def refEntryLe (d e : punctuationByRefEntry) : Prop :=
  refEntryKey d ≤ refEntryKey e

/-- Order on by-index entries by their index number field. -/
def indexEntryLe (d e : punctuationByIndexEntry) : Prop :=
  d.indexNumber ≤ e.indexNumber

/-! ### Model of the include guard -/

/-- Preprocessor symbols relevant to this header. -/
inductive PpSymbol where
  | BIBLEPUNCTUATIONSYSTEMS_Tables_h
deriving DecidableEq

/-- State of a translation unit while the preprocessor runs: the symbols
defined so far and the struct declarations introduced so far. -/
structure CppState where
  defined : List PpSymbol
  decls : List CStructDecl
deriving DecidableEq

/-- The guard symbol of the header (lines 6-7 and 25). -/
def headerGuard : PpSymbol := .BIBLEPUNCTUATIONSYSTEMS_Tables_h

/-- The declarations the header introduces, in order. -/
def headerDecls : List CStructDecl :=
  [punctuationByRefEntryDecl, punctuationByIndexEntryDecl, tableEntryDecl]

/-- Processing one `#include` of the header: if the guard symbol is already
defined the body is skipped; otherwise the guard is defined and the three
declarations are appended. -/
def includeHeader (st : CppState) : CppState :=
  if headerGuard ∈ st.defined then st
  else { defined := headerGuard :: st.defined, decls := st.decls ++ headerDecls }

/-- A concrete abbreviation input: the three printable characters G, E, N. -/
def sampleAbbrevInput : AbbrevInput :=
  ⟨⟨71, by decide⟩, ⟨69, by decide⟩, ⟨78, by decide⟩, by decide, by decide, by decide⟩

/-- A concrete association: abbreviation GEN, index number 5. -/
def samplePair : SystemPair :=
  ⟨sampleAbbrevInput, 5⟩

/-! ### Helper lemmas -/

theorem abbrevField_zero (a : AbbrevInput) : abbrevField a 0 = a.c0 := rfl

theorem abbrevField_one (a : AbbrevInput) : abbrevField a 1 = a.c1 := rfl

theorem abbrevField_two (a : AbbrevInput) : abbrevField a 2 = a.c2 := rfl

theorem abbrevField_three (a : AbbrevInput) : abbrevField a 3 = 0 := rfl

theorem refEntryKey_mkRefEntry (p : SystemPair) :
    refEntryKey (mkRefEntry p) = abbrevKey p.abbrevPart := rfl

theorem byReference_pairs_perm (nm : List (Fin 256)) (pairs : List SystemPair) :
    ((generateTable nm pairs).byReference.map refPairOf).Perm (pairs.map logicalPair) := by
  have h := (List.perm_insertionSort byRefOrder pairs).map logicalPair
  simpa [generateTable, List.map_map, Function.comp, refPairOf, mkRefEntry,
    logicalPair] using h

theorem byBook_pairs_perm (nm : List (Fin 256)) (pairs : List SystemPair) :
    ((generateTable nm pairs).byBook.map indexPairOf).Perm (pairs.map logicalPair) := by
  have h := (List.perm_insertionSort byIndexOrder pairs).map logicalPair
  simpa [generateTable, List.map_map, Function.comp, indexPairOf, mkIndexEntry,
    logicalPair] using h

/-! ### Claim theorems -/

/-- C1: each of the three record types has exactly the field count and order
of the public contract: `punctuationByRefEntry` holds the abbreviation field
followed by the index field; `punctuationByIndexEntry` holds the index field
followed by the abbreviation field; `tableEntry` holds `systemName`, then
`byReference` pointing to `punctuationByRefEntry` entries, then `byBook`
pointing to `punctuationByIndexEntry` entries. -/
theorem C1_field_counts_and_order :
    punctuationByRefEntryDecl.fields.map CFieldDecl.fname =
      [.referenceAbbreviation, .indexNumber] ∧
    punctuationByIndexEntryDecl.fields.map CFieldDecl.fname =
      [.indexNumber, .referenceAbbreviation] ∧
    tableEntryDecl.fields.map CFieldDecl.fname =
      [.systemName, .byReference, .byBook] ∧
    punctuationByRefEntryDecl.fields.length = 2 ∧
    punctuationByIndexEntryDecl.fields.length = 2 ∧
    tableEntryDecl.fields.length = 3 ∧
    tableEntryDecl.fields.map CFieldDecl.ftype =
      [.ptr (.constQual .uchar), .ptr (.structRef .punctuationByRefEntryName),
       .ptr (.structRef .punctuationByIndexEntryName)] := by
  refine ⟨rfl, rfl, rfl, rfl, rfl, rfl, rfl⟩

/-- C2: in both entry types the `referenceAbbreviation` field is declared
as a fixed array of 3+1 const characters, and for every instance its
storage is exactly 4 fixed units — a fixed-width field, not a
variable-length string. -/
theorem C2_abbrev_four_fixed_units :
    (∀ e : punctuationByRefEntry, e.abbrevUnits.length = 3 + 1) ∧
    (∀ e : punctuationByIndexEntry, e.abbrevUnits.length = 3 + 1) ∧
    (punctuationByRefEntryDecl.fields.map CFieldDecl.ftype).head? =
      some (.arr (.constQual .uchar) (3 + 1)) ∧
    (punctuationByIndexEntryDecl.fields.map CFieldDecl.ftype).get? 1 =
      some (.arr (.constQual .uchar) (3 + 1)) := by
  refine ⟨fun e => ?_, fun e => ?_, rfl, rfl⟩ <;>
    simp [punctuationByRefEntry.abbrevUnits, punctuationByIndexEntry.abbrevUnits]

/-- C3: the two entry types carry the same two logical fields merely
reordered: building a by-index entry from a by-reference entry's fields and
back (and conversely) is the identity, field values included, and the
declared field list of one type is exactly the reversal of the other. -/
theorem C3_roundtrip :
    (∀ e : punctuationByRefEntry, toRefEntry (toIndexEntry e) = e) ∧
    (∀ e : punctuationByIndexEntry, toIndexEntry (toRefEntry e) = e) ∧
    (∀ e : punctuationByRefEntry,
      (toIndexEntry e).referenceAbbreviation = e.referenceAbbreviation ∧
      (toIndexEntry e).indexNumber = e.indexNumber) ∧
    (∀ e : punctuationByIndexEntry,
      (toRefEntry e).referenceAbbreviation = e.referenceAbbreviation ∧
      (toRefEntry e).indexNumber = e.indexNumber) ∧
    punctuationByIndexEntryDecl.fields = punctuationByRefEntryDecl.fields.reverse :=
  ⟨fun _ => rfl, fun _ => rfl, fun _ => ⟨rfl, rfl⟩, fun _ => ⟨rfl, rfl⟩, rfl⟩

/-- C4 counterexample: the claim that no field of any instance of the three
record types can be mutated fails for `tableEntry`, whose three pointer
fields are not const-qualified in the header and are therefore assignable
after initialization. -/
theorem C4_counterexample : allFieldsConst tableEntryDecl = false := rfl

/-- C4 (amended): every field of `punctuationByRefEntry` and
`punctuationByIndexEntry` is const-qualified, hence immutable after
initialization; the three fields of `tableEntry` are non-const pointers —
the pointers themselves are assignable — although `systemName` points at
const data. -/
theorem C4_const_fields :
    allFieldsConst punctuationByRefEntryDecl = true ∧
    allFieldsConst punctuationByIndexEntryDecl = true ∧
    allFieldsConst tableEntryDecl = false ∧
    tableEntryDecl.fields.map (fun f => f.ftype.objectConst) =
      [false, false, false] ∧
    tableEntryDecl.fields.map (fun f => f.ftype.pointeeConst) =
      [true, false, false] :=
  ⟨rfl, rfl, rfl, rfl, rfl⟩

/-- C5: for every table the (spec-modelled) generator populates, the
`byReference` array and the `byBook` array hold the same logical entry set:
an (abbreviation, index) pair appears in one exactly when it appears in the
other. -/
theorem C5_same_entry_set (nm : List (Fin 256)) (pairs : List SystemPair) :
    ∀ pr : (Fin (3 + 1) → Fin 256) × Int,
      pr ∈ (generateTable nm pairs).byReference.map refPairOf ↔
      pr ∈ (generateTable nm pairs).byBook.map indexPairOf := by
  intro pr
  exact ((byReference_pairs_perm nm pairs).trans
    (byBook_pairs_perm nm pairs).symm).mem_iff

/-- C6: for every table the (spec-modelled) generator populates, the
`byReference` array is sorted by reference abbreviation and the `byBook`
array is sorted by index number. -/
theorem C6_arrays_sorted (nm : List (Fin 256)) (pairs : List SystemPair) :
    List.Sorted refEntryLe ((generateTable nm pairs).byReference) ∧
    List.Sorted indexEntryLe ((generateTable nm pairs).byBook) := by
  constructor
  · have h := List.sorted_insertionSort byRefOrder pairs
    exact h.map mkRefEntry (fun p q hpq => hpq)
  · have h := List.sorted_insertionSort byIndexOrder pairs
    refine h.map mkIndexEntry (fun p q hpq => ?_)
    show ((p.indexPart : Int) ≤ (q.indexPart : Int))
    exact_mod_cast hpq

/-- C7: every entry of either array of a (spec-modelled) generated table
has a non-negative index number. -/
theorem C7_index_nonneg (nm : List (Fin 256)) (pairs : List SystemPair) :
    (∀ e ∈ (generateTable nm pairs).byReference, 0 ≤ e.indexNumber) ∧
    (∀ e ∈ (generateTable nm pairs).byBook, 0 ≤ e.indexNumber) := by
  constructor
  · intro e he
    rcases List.mem_map.mp he with ⟨p, _, hp⟩
    rw [← hp]
    exact Int.natCast_nonneg p.indexPart
  · intro e he
    rcases List.mem_map.mp he with ⟨p, _, hp⟩
    rw [← hp]
    exact Int.natCast_nonneg p.indexPart

/-- Witness for C7: its hypotheses hold at a concrete one-entry generated
table. -/
theorem C7_index_nonneg_witness :
    0 ≤ (mkRefEntry samplePair).indexNumber ∧
    0 ≤ (mkIndexEntry samplePair).indexNumber :=
  ⟨(C7_index_nonneg [] [samplePair]).1 (mkRefEntry samplePair) (List.Mem.head _),
   (C7_index_nonneg [] [samplePair]).2 (mkIndexEntry samplePair) (List.Mem.head _)⟩

/-- C8: in every entry of either array of a (spec-modelled) generated
table, the abbreviation field is exactly 3 printable characters followed by
the terminating sentinel in the fourth position. -/
theorem C8_abbrev_content (nm : List (Fin 256)) (pairs : List SystemPair) :
    (∀ e ∈ (generateTable nm pairs).byReference,
      printableChar (e.referenceAbbreviation 0) = true ∧
      printableChar (e.referenceAbbreviation 1) = true ∧
      printableChar (e.referenceAbbreviation 2) = true ∧
      e.referenceAbbreviation 3 = 0) ∧
    (∀ e ∈ (generateTable nm pairs).byBook,
      printableChar (e.referenceAbbreviation 0) = true ∧
      printableChar (e.referenceAbbreviation 1) = true ∧
      printableChar (e.referenceAbbreviation 2) = true ∧
      e.referenceAbbreviation 3 = 0) := by
  constructor
  · intro e he
    rcases List.mem_map.mp he with ⟨p, _, hp⟩
    rw [← hp]
    exact ⟨p.abbrevPart.h0, p.abbrevPart.h1, p.abbrevPart.h2, rfl⟩
  · intro e he
    rcases List.mem_map.mp he with ⟨p, _, hp⟩
    rw [← hp]
    exact ⟨p.abbrevPart.h0, p.abbrevPart.h1, p.abbrevPart.h2, rfl⟩

/-- Witness for C8: its hypotheses hold at a concrete one-entry generated
table. -/
theorem C8_abbrev_content_witness :
    (printableChar ((mkRefEntry samplePair).referenceAbbreviation 0) = true ∧
     printableChar ((mkRefEntry samplePair).referenceAbbreviation 1) = true ∧
     printableChar ((mkRefEntry samplePair).referenceAbbreviation 2) = true ∧
     (mkRefEntry samplePair).referenceAbbreviation 3 = 0) ∧
    (printableChar ((mkIndexEntry samplePair).referenceAbbreviation 0) = true ∧
     printableChar ((mkIndexEntry samplePair).referenceAbbreviation 1) = true ∧
     printableChar ((mkIndexEntry samplePair).referenceAbbreviation 2) = true ∧
     (mkIndexEntry samplePair).referenceAbbreviation 3 = 0) :=
  ⟨(C8_abbrev_content [] [samplePair]).1 (mkRefEntry samplePair) (List.Mem.head _),
   (C8_abbrev_content [] [samplePair]).2 (mkIndexEntry samplePair) (List.Mem.head _)⟩

/-- C9: the `systemName` field of `tableEntry` is declared as a pointer to
const characters: the text it points to cannot be modified through a
`tableEntry` instance. -/
theorem C9_systemName_readonly :
    (tableEntryDecl.fields.map CFieldDecl.ftype).head? =
      some (.ptr (.constQual .uchar)) ∧
    (tableEntryDecl.fields.map (fun f => f.ftype.pointeeConst)).head? =
      some true :=
  ⟨rfl, rfl⟩

/-- C10: including the header any number of times in one translation unit
is idempotent — with the guard symbol, a second inclusion changes nothing,
and a single inclusion from a fresh translation unit introduces the three
declarations exactly once. -/
theorem C10_include_idempotent :
    (∀ st : CppState, includeHeader (includeHeader st) = includeHeader st) ∧
    (includeHeader ⟨[], []⟩).decls = headerDecls := by
  constructor
  · intro st
    by_cases h : headerGuard ∈ st.defined
    · simp [includeHeader, h]
    · simp [includeHeader, h]
  · rfl

end BiblePunctuationTables
